import Mathlib

/-!
Shallow embedding of the Convo chat backend (`src/backend/server.js`) and
verification of its specification claims.

The server keeps an in-memory table `rooms` mapping a room code to a room
record `{ users, messages, lastActivity, createdAt }`.  Socket handlers
(`join_room`, `send_message`, `generate_summary`, `disconnecting`) and the
background reaper (`expireInactiveRooms`) mutate this table.  We model the
table as an association list (JS object keys are unique, which we carry as a
`Nodup` hypothesis where it matters), message text as `List Char` (a JS
string is a sequence of code units), and timestamps as `Int` (JS numbers
under subtraction and comparison).  Each socket handler is embedded as a
function from the store (plus its inputs) to the new store together with the
emitted outcome; the asynchronous gateway call in `generate_summary` is
embedded by passing the gateway's eventual result as an explicit argument to
the post-await continuation.
-/

namespace Convo

/-- Message text: a JS string as a list of characters. -/
abbrev Str := List Char

/-- `MAX_MESSAGES_PER_ROOM = 1000` (server.js line 39). -/
def MAX_MESSAGES_PER_ROOM : Nat := 1000

/-- `MAX_CHARACTERS_PER_MESSAGE = 5000` (server.js line 40). -/
def MAX_CHARACTERS_PER_MESSAGE : Nat := 5000

/-- `ROOM_INACTIVITY_TIMEOUT = 30 * 60 * 1000` milliseconds (server.js line 41). -/
def ROOM_INACTIVITY_TIMEOUT : Int := 30 * 60 * 1000

/-- An entry of `room.users`: `{ id: socketId, username }`. -/
structure User where
  id : String
  username : String
deriving Repr, DecidableEq

/-- An entry of `room.messages`: `{ username, message, timestamp }`. -/
structure Message where
  username : String
  message : Str
  timestamp : Int
deriving Repr, DecidableEq

/-- A room record: `{ users, messages, lastActivity, createdAt }`. -/
structure Room where
  users : List User
  messages : List Message
  lastActivity : Int
  createdAt : Int
deriving Repr, DecidableEq

/-- The `rooms` table: room code to room record.  A JS object has unique
keys; theorems that need uniqueness take it as a `Nodup` hypothesis. -/
abbrev Rooms := List (String × Room)

/-- Reading `rooms[roomCode]`: the first entry with the given code. -/
def lookupRoom (rs : Rooms) (code : String) : Option Room :=
  (rs.find? (fun p => p.1 == code)).map Prod.snd

/-- Writing back a mutated room record under its code. -/
def updateRoom (rs : Rooms) (code : String) (r : Room) : Rooms :=
  rs.map (fun p => if p.1 == code then (p.1, r) else p)

/-- `delete rooms[roomCode]` (the body of `cleanupRoom`, server.js 185-190). -/
def removeRoom (rs : Rooms) (code : String) : Rooms :=
  rs.filter (fun p => p.1 != code)

/-- JS `Boolean` character class used by `String.prototype.trim`. -/
def isSpaceChar (c : Char) : Bool := c.isWhitespace

/-- JS `message.trim()`: strip leading and trailing whitespace. -/
def trim (s : Str) : Str :=
  ((s.dropWhile isSpaceChar).reverse.dropWhile isSpaceChar).reverse

/-- Result of `validateMessage` (server.js 82-99). -/
inductive ValidationResult where
  | valid
  | invalid (error : String)
deriving Repr, DecidableEq

/-- Error string for an over-long message (server.js 94). -/
def msgTooLongError : String :=
  "Message exceeds maximum length of " ++ toString MAX_CHARACTERS_PER_MESSAGE
    ++ " characters"

/-- `validateMessage(message)` (server.js 82-99).  We model only string
inputs (the non-string branch of the JS dynamic-type check is outside the
embedding); `!message` on a string is the emptiness test.  Note the length
check is against the RAW string, while the emptiness check is on the
trimmed string. -/
def validateMessage (message : Str) : ValidationResult :=
  if message.isEmpty then
    .invalid "Message must be a non-empty string"
  else if (trim message).length == 0 then
    .invalid "Message cannot be empty"
  else if message.length > MAX_CHARACTERS_PER_MESSAGE then
    .invalid msgTooLongError
  else
    .valid

/-- `hasReachedMessageLimit(roomCode)` (server.js 104-107). -/
def hasReachedMessageLimit (rs : Rooms) (code : String) : Bool :=
  match lookupRoom rs code with
  | some room => room.messages.length ≥ MAX_MESSAGES_PER_ROOM
  | none => false

/-- Outcome emitted by the `join_room` handler. -/
inductive JoinOutcome where
  | roomNotFound
  | joined (username : String)
deriving Repr, DecidableEq

/-- The `join_room` handler (server.js 267-278): if the room exists, append
the participant, update `lastActivity`, and broadcast `user_joined`. -/
def joinRoom (rs : Rooms) (code id username : String) (now : Int) :
    Rooms × JoinOutcome :=
  match lookupRoom rs code with
  | none => (rs, .roomNotFound)
  | some room =>
      let room' := { room with
        users := room.users ++ [⟨id, username⟩], lastActivity := now }
      (updateRoom rs code room', .joined username)

/-- Outcome emitted by the `send_message` handler. -/
inductive SendOutcome where
  | roomNotFound
  | invalidMessage (error : String)
  | limitReached
  | broadcast (username : String) (message : Str)
deriving Repr, DecidableEq

/-- The `send_message` handler (server.js 284-322): room existence, then
`validateMessage`, then `hasReachedMessageLimit`; on success append the
trimmed message, update `lastActivity`, broadcast `receive_message`. -/
def sendMessage (rs : Rooms) (code username : String) (message : Str)
    (now : Int) : Rooms × SendOutcome :=
  match lookupRoom rs code with
  | none => (rs, .roomNotFound)
  | some room =>
      match validateMessage message with
      | .invalid e => (rs, .invalidMessage e)
      | .valid =>
          if hasReachedMessageLimit rs code then
            (rs, .limitReached)
          else
            let msgData : Message := ⟨username, trim message, now⟩
            let room' := { room with
              messages := room.messages ++ [msgData], lastActivity := now }
            (updateRoom rs code room', .broadcast username (trim message))

/-- One room's part of the `disconnecting` handler (server.js 374-382): if
the room exists, keep the users whose `id` differs from the disconnecting
socket's id, update `lastActivity`, broadcast `user_left`. -/
def disconnectFromRoom (rs : Rooms) (code socketId : String) (now : Int) :
    Rooms :=
  match lookupRoom rs code with
  | none => rs
  | some room =>
      let room' := { room with
        users := room.users.filter (fun u => u.id != socketId),
        lastActivity := now }
      updateRoom rs code room'

/-! ### The summarization gateway (`generateSummary`, server.js 128-179)

The gateway formats the transcript, calls the external model, strips
markdown fences, `JSON.parse`s the reply, and builds a summary record with
per-field defaults.  We embed the network call and `JSON.parse` at the
granularity the claims need: the parsed reply is a record of the three
fields the code reads, each `Option`-valued (`none` for `summary` means the
field is absent or `null`/`undefined`; `none` for a list field means the
field is absent or fails `Array.isArray`), and a totally unparseable reply
is the `none` case of `Option ParsedReply`. -/

/-- The structured summary record returned by `generateSummary`
(server.js 170-174). -/
structure Summary where
  summary : Str
  keyPoints : List Str
  actionItems : List Str
deriving Repr, DecidableEq

/-- The fields of the collaborator's JSON reply that `generateSummary`
reads (`summaryData.summary`, `.keyPoints`, `.actionItems`). -/
structure ParsedReply where
  summary : Option Str
  keyPoints : Option (List Str)
  actionItems : Option (List Str)
deriving Repr, DecidableEq

/-- The default overview string `'No summary available'` (server.js 171). -/
def NO_SUMMARY_AVAILABLE : Str := "No summary available".data

/-- JS `summaryData.summary || defaultValue`: the default is used when the
field is absent (`none`) or present but falsy — for a string field, empty
(server.js 171). -/
def jsOrDefault (v : Option Str) (d : Str) : Str :=
  match v with
  | none => d
  | some s => if s.isEmpty then d else s

/-- Building the summary record from a parsed reply (server.js 170-174):
`summary || 'No summary available'`; a list field that is not an array
becomes `[]`. -/
def buildSummary (r : ParsedReply) : Summary :=
  { summary := jsOrDefault r.summary NO_SUMMARY_AVAILABLE
    keyPoints := r.keyPoints.getD []
    actionItems := r.actionItems.getD [] }

/-- Error message thrown on gateway failure (server.js 177). -/
def gatewayFailMsg : String := "Failed to generate summary. Please try again."

/-- The parse-and-structure tail of `generateSummary` (server.js 167-178):
`JSON.parse` failure (or a collaborator error) lands in the `catch` and
rethrows `gatewayFailMsg`; a reply that parses is structured with
per-field defaults, never an error. -/
def gatewaySummarize (parsed : Option ParsedReply) : Except String Summary :=
  match parsed with
  | none => .error gatewayFailMsg
  | some r => .ok (buildSummary r)

/-! ### The `generate_summary` handler (server.js 328-369) -/

/-- The guard outcome of the `generate_summary` handler before the gateway
is invoked: missing room, empty room, or proceed to `generateSummary`. -/
inductive SummaryGuard where
  | roomNotFound
  | noMessages
  | proceed
deriving Repr, DecidableEq

/-- The guard of the `generate_summary` handler (server.js 331-339): reject
a missing room, reject a room with no messages, otherwise proceed to the
gateway call. -/
def summaryGuard (rs : Rooms) (code : String) : SummaryGuard :=
  match lookupRoom rs code with
  | none => .roomNotFound
  | some room => if room.messages.isEmpty then .noMessages else .proceed

/-- Whether the handler reaches the `generateSummary` gateway call. -/
def gatewayInvoked (rs : Rooms) (code : String) : Bool :=
  summaryGuard rs code == .proceed

/-- The synchronous prefix of the `generate_summary` handler, from entry up
to the `await generateSummary(roomCode)` call (server.js 328-346): it reads
`rooms[roomCode]`, possibly emits an error or the `summary_generating`
event, but performs no store mutation, so the store at the moment of the
gateway call is the store at entry. -/
def generateSummaryPrefix (rs : Rooms) (code : String) :
    Rooms × SummaryGuard :=
  (rs, summaryGuard rs code)

/-- What the `generate_summary` handler emits after the await (or at a
guard rejection).  Errors are emitted with `socket.emit` (to the requester
only); `generated` is emitted with `io.to(roomCode).emit` (to the whole
room). -/
inductive SummaryEmit where
  | errorRoomNotFound
  | errorNoMessages
  | errorGateway (message : String)
  | generated (s : Summary) (messageCount : Nat)
deriving Repr, DecidableEq

/-- Recipient of each emit in the `generate_summary` handler, read off the
code: `socket.emit('error', ...)` for every error path (server.js 332, 337,
365), `io.to(roomCode).emit('summary_generated', ...)` for success
(server.js 349). -/
inductive Recipient where
  | requesterOnly
  | wholeRoom
deriving Repr, DecidableEq

/-- Which connections each `generate_summary` emit goes to. -/
def emitRecipient : SummaryEmit → Recipient
  | .generated _ _ => .wholeRoom
  | _ => .requesterOnly

/-- Result of the awaited gateway call as seen by the handler: either a
summary or a thrown error message. -/
inductive GatewayResult where
  | success (s : Summary)
  | failure (message : String)
deriving Repr, DecidableEq

/-- The `generate_summary` handler (server.js 328-369) with the awaited
gateway result passed explicitly.  Guard rejections and the `catch` branch
leave the store untouched; the success branch broadcasts the summary with
the room's message count and leaves the store untouched too — the
`cleanupRoom` deletion runs later, in a 2-second `setTimeout`
(`scheduledCleanup` below). -/
def handleGenerateSummary (rs : Rooms) (code : String) (gw : GatewayResult) :
    Rooms × SummaryEmit :=
  match lookupRoom rs code with
  | none => (rs, .errorRoomNotFound)
  | some room =>
      if room.messages.isEmpty then
        (rs, .errorNoMessages)
      else
        match gw with
        | .failure msg => (rs, .errorGateway msg)
        | .success s => (rs, .generated s room.messages.length)

/-- The delayed cleanup scheduled on the success path (server.js 358-361):
after the 2-second grace delay, `cleanupRoom(roomCode)` deletes the room. -/
def scheduledCleanup (rs : Rooms) (code : String) : Rooms :=
  removeRoom rs code

/-! ### The activity reaper (`expireInactiveRooms`, server.js 196-212) -/

/-- Whether a room counts as expired at time `now` (server.js 201):
`now - room.lastActivity > ROOM_INACTIVITY_TIMEOUT`, strictly. -/
def isExpired (now : Int) (room : Room) : Bool :=
  now - room.lastActivity > ROOM_INACTIVITY_TIMEOUT

/-- `expireInactiveRooms()` (server.js 196-212): collect the codes of
expired rooms, delete each via `cleanupRoom`, and return how many were
collected. -/
def expireInactiveRooms (rs : Rooms) (now : Int) : Rooms × Nat :=
  let expiredCodes := (rs.filter (fun p => isExpired now p.2)).map Prod.fst
  (expiredCodes.foldl (fun acc c => removeRoom acc c) rs, expiredCodes.length)

/-! ### Concrete fixtures used by witnesses and counterexamples -/

/-- A one-word message record. -/
def exMsg : Message := ⟨"alice", ['h', 'i'], 1⟩

/-- A summary record for exercising the success path. -/
def exSummary : Summary := ⟨['o', 'k'], [], []⟩

/-- A room with one participant and one message. -/
def roomC1 : Room := ⟨[⟨"s1", "alice"⟩], [exMsg], 5, 0⟩

/-- A store holding `roomC1` under code `ROOM1`. -/
def stateC1 : Rooms := [("ROOM1", roomC1)]

/-- A room with one message whose `lastActivity` is 5. -/
def roomC2 : Room := ⟨[], [exMsg], 5, 0⟩

/-- A store holding `roomC2` under code `ROOM2`. -/
def stateC2 : Rooms := [("ROOM2", roomC2)]

/-- A 5001-character text whose trimmed form has exactly 5000 characters:
one leading space followed by 5000 letters. -/
def t0 : Str := ' ' :: List.replicate 5000 'a'

/-- An empty room. -/
def roomC3 : Room := ⟨[], [], 5, 0⟩

/-- A store holding the empty `roomC3` under code `ROOM3`. -/
def stateC3 : Rooms := [("ROOM3", roomC3)]

/-- A room filled to exactly `MAX_MESSAGES_PER_ROOM` messages. -/
def roomC4 : Room := ⟨[], List.replicate MAX_MESSAGES_PER_ROOM exMsg, 5, 0⟩

/-- A store holding the full `roomC4` under code `ROOM4`. -/
def stateC4 : Rooms := [("ROOM4", roomC4)]

/-- A room with a participant but zero messages. -/
def roomC5 : Room := ⟨[⟨"s1", "alice"⟩], [], 5, 0⟩

/-- A store holding the message-less `roomC5` under code `ROOM5`. -/
def stateC5 : Rooms := [("ROOM5", roomC5)]

/-- A collaborator reply that parsed but carries none of the three fields. -/
def replyMissingAll : ParsedReply := ⟨none, none, none⟩

/-- A room in which the same connection id `s1` appears twice in the
participant list (the same socket joined the room twice). -/
def roomC8 : Room := ⟨[⟨"s1", "alice"⟩, ⟨"s1", "bob"⟩], [], 5, 0⟩

/-- A store holding `roomC8` under code `ROOM8`. -/
def stateC8 : Rooms := [("ROOM8", roomC8)]

/-- A store with one fresh room (idle 1 000 000 ms at `now = 2 000 000`)
and one stale room (idle 2 000 000 ms, beyond the 1 800 000 ms timeout). -/
def stateC9 : Rooms := [("LIVE", ⟨[], [], 1000000, 0⟩), ("DEAD", ⟨[], [], 0, 0⟩)]

/-- A room that already has three participants — more than the two parties
the product intends. -/
def roomC10 : Room := ⟨[⟨"s1", "a"⟩, ⟨"s2", "b"⟩, ⟨"s3", "c"⟩], [], 5, 0⟩

/-- A store holding `roomC10` under code `ROOMX`. -/
def stateC10 : Rooms := [("ROOMX", roomC10)]

/-! ### Helper lemmas -/

/-- Looking up a code after writing back a room under that code yields the
written room. -/
theorem lookupRoom_updateRoom_self (rs : Rooms) (code : String)
    (room r' : Room) (h : lookupRoom rs code = some room) :
    lookupRoom (updateRoom rs code r') code = some r' := by
  induction rs with
  | nil => simp [lookupRoom] at h
  | cons p ps ih =>
      by_cases hc : (p.1 == code) = true
      · have hpc : p.1 = code := by simpa using hc
        simp [lookupRoom, updateRoom, List.find?_cons, hpc]
      · have hcf : (p.1 == code) = false := by simpa using hc
        simp only [lookupRoom, List.find?_cons, hcf] at h
        simp only [lookupRoom, updateRoom, List.map_cons, List.find?_cons, hcf,
          Bool.false_eq_true, if_false]
        exact ih h

/-- `dropWhile` keeps a replicate of a character the predicate rejects. -/
theorem dropWhile_replicate_of_neg (p : Char → Bool) (a : Char)
    (h : p a = false) :
    ∀ n, List.dropWhile p (List.replicate n a) = List.replicate n a := by
  intro n
  cases n with
  | zero => rfl
  | succ n => rw [List.replicate_succ, List.dropWhile_cons, h]; simp

/-- Trimming a leading space off a run of letters leaves the run. -/
theorem trim_space_replicate_a (n : Nat) :
    trim (' ' :: List.replicate n 'a') = List.replicate n 'a' := by
  unfold trim
  rw [List.dropWhile_cons]
  have ha : isSpaceChar 'a' = false := by decide
  have hs : isSpaceChar ' ' = true := by decide
  rw [hs]
  simp [dropWhile_replicate_of_neg _ _ ha, List.reverse_replicate]

/-- The trimmed form of `t0` is the bare 5000-letter run. -/
theorem trim_t0 : trim t0 = List.replicate 5000 'a' :=
  trim_space_replicate_a 5000

/-- The raw length of `t0` is 5001. -/
theorem t0_length : t0.length = 5001 := by
  simp only [t0, List.length_cons, List.length_replicate]

/-- `validateMessage` rejects `t0` for raw length although its trimmed
length is within the limit. -/
theorem validate_t0 : validateMessage t0 = .invalid msgTooLongError := by
  unfold validateMessage
  rw [show t0.isEmpty = false from rfl, if_neg Bool.false_ne_true]
  rw [trim_t0, List.length_replicate]
  rw [if_neg (by decide)]
  rw [if_pos (show t0.length > MAX_CHARACTERS_PER_MESSAGE by
    rw [t0_length]; decide)]

/-- Deleting each code of a list in turn keeps exactly the entries whose
key is in none of the codes. -/
theorem foldl_removeRoom_eq_filter (codes : List String) (acc : Rooms) :
    codes.foldl (fun a c => removeRoom a c) acc
      = acc.filter (fun p => !(codes.contains p.1)) := by
  induction codes generalizing acc with
  | nil => simp
  | cons c cs ih =>
      rw [List.foldl_cons, ih]
      unfold removeRoom
      rw [List.filter_filter]
      apply List.filter_congr
      intro p _
      simp only [List.contains_cons, Bool.not_or, bne, Bool.and_comm]

/-- A filter and its complementary filter split the length of a user
list. -/
theorem users_filter_length (us : List User) (sid : String) :
    (us.filter (fun u => u.id != sid)).length
      + (us.filter (fun u => u.id == sid)).length = us.length := by
  induction us with
  | nil => rfl
  | cons u tl ih =>
      by_cases h : (u.id == sid) = true
      · have hb : (u.id != sid) = false := by simp [bne, h]
        simp only [List.filter_cons, h, hb, Bool.false_eq_true, if_false,
          if_true, List.length_cons]
        omega
      · have hf : (u.id == sid) = false := by simpa using h
        have hb : (u.id != sid) = true := by simp [bne, hf]
        simp only [List.filter_cons, hf, hb, Bool.false_eq_true, if_false,
          if_true, List.length_cons]
        omega

/-- No branch of the `generate_summary` handler mutates the store: the
deletion on the success path happens only in the later scheduled
cleanup. -/
theorem handleGenerateSummary_fst (rs : Rooms) (code : String)
    (gw : GatewayResult) : (handleGenerateSummary rs code gw).1 = rs := by
  unfold handleGenerateSummary
  cases h : lookupRoom rs code with
  | none => rfl
  | some room =>
      by_cases he : room.messages.isEmpty = true
      · simp [he]
      · cases gw <;> simp [he]

/-! ### Claim theorems -/

/-- Claim C1 counterexample: the `generate_summary` handler mutates nothing
before its gateway call, so on the concrete store `stateC1` a first request
proceeds to the gateway and a second request issued while the first is in
flight (i.e. against the store as the prefix of the first handler left it)
also proceeds — both of two concurrent requests reach the gateway, so
"exactly one proceeds" and the promised already-summarizing rejection are
false. -/
theorem c1_counterexample_both_requests_proceed :
    gatewayInvoked stateC1 "ROOM1" = true ∧
    (generateSummaryPrefix stateC1 "ROOM1").1 = stateC1 ∧
    gatewayInvoked (generateSummaryPrefix stateC1 "ROOM1").1 "ROOM1" = true :=
  ⟨by decide, rfl, by decide⟩

/-- Claim C1 (amended): accepting a summarize request does not mark the
room — the handler's synchronous prefix up to the gateway call leaves the
store unchanged, acceptance is decided only by room existence and message
non-emptiness, and therefore a second summarize request on the same room
while one is in flight is also accepted and proceeds to the gateway. -/
theorem summarize_no_summarizing_state (rs : Rooms) (code : String)
    (room : Room) (hlk : lookupRoom rs code = some room)
    (hne : room.messages ≠ []) :
    summaryGuard rs code = .proceed ∧
    (generateSummaryPrefix rs code).1 = rs ∧
    summaryGuard (generateSummaryPrefix rs code).1 code = .proceed := by
  have he : room.messages.isEmpty = false := List.isEmpty_eq_false.mpr hne
  refine ⟨?_, rfl, ?_⟩ <;>
    simp [summaryGuard, generateSummaryPrefix, hlk, he]

/-- Claim C1 witness: the amended theorem instantiated on `stateC1`. -/
theorem summarize_no_summarizing_state_witness :
    (lookupRoom stateC1 "ROOM1" = some roomC1 ∧ roomC1.messages ≠ []) ∧
    (summaryGuard stateC1 "ROOM1" = .proceed ∧
     (generateSummaryPrefix stateC1 "ROOM1").1 = stateC1 ∧
     summaryGuard (generateSummaryPrefix stateC1 "ROOM1").1 "ROOM1"
       = .proceed) :=
  ⟨⟨rfl, by decide⟩,
   summarize_no_summarizing_state stateC1 "ROOM1" roomC1 rfl (by decide)⟩

/-- Claim C2 counterexample: on the concrete store `stateC2`, whose room
has `lastActivity = 5`, the summarize handler returns the store unchanged
for both gateway outcomes (it takes no clock input at all), so a summarize
never updates `lastActivity` to the current time. -/
theorem c2_counterexample_summarize_keeps_lastActivity :
    (handleGenerateSummary stateC2 "ROOM2" (.success exSummary)).1 = stateC2 ∧
    (handleGenerateSummary stateC2 "ROOM2" (.failure gatewayFailMsg)).1
      = stateC2 ∧
    (lookupRoom stateC2 "ROOM2").map Room.lastActivity = some 5 :=
  ⟨rfl, rfl, rfl⟩

/-- Claim C2 (amended): join, leave and send-message each set the room's
`lastActivity` to the current time, but the summarize handler leaves the
store — and hence `lastActivity` — entirely unchanged. -/
theorem mutations_update_lastActivity (rs : Rooms) (code id u : String)
    (t : Str) (now : Int) (room : Room)
    (hlk : lookupRoom rs code = some room) :
    (lookupRoom (joinRoom rs code id u now).1 code).map Room.lastActivity
      = some now ∧
    (validateMessage t = .valid → hasReachedMessageLimit rs code = false →
      (lookupRoom (sendMessage rs code u t now).1 code).map Room.lastActivity
        = some now) ∧
    (lookupRoom (disconnectFromRoom rs code id now) code).map Room.lastActivity
      = some now ∧
    ∀ gw, (handleGenerateSummary rs code gw).1 = rs := by
  refine ⟨?_, ?_, ?_, fun gw => handleGenerateSummary_fst rs code gw⟩
  · simp only [joinRoom, hlk]
    rw [lookupRoom_updateRoom_self rs code room _ hlk]
    rfl
  · intro hv hl
    simp only [sendMessage, hlk, hv, hl, Bool.false_eq_true, if_false]
    rw [lookupRoom_updateRoom_self rs code room _ hlk]
    rfl
  · simp only [disconnectFromRoom, hlk]
    rw [lookupRoom_updateRoom_self rs code room _ hlk]
    rfl

/-- Claim C2 witness: the amended theorem instantiated on `stateC2`. -/
theorem mutations_update_lastActivity_witness :
    lookupRoom stateC2 "ROOM2" = some roomC2 ∧
    validateMessage ['h', 'i'] = .valid ∧
    hasReachedMessageLimit stateC2 "ROOM2" = false ∧
    (lookupRoom (joinRoom stateC2 "ROOM2" "s9" "zoe" 42).1 "ROOM2").map
      Room.lastActivity = some 42 ∧
    (lookupRoom (sendMessage stateC2 "ROOM2" "zoe" ['h', 'i'] 43).1
      "ROOM2").map Room.lastActivity = some 43 ∧
    (lookupRoom (disconnectFromRoom stateC2 "ROOM2" "s9" 44) "ROOM2").map
      Room.lastActivity = some 44 ∧
    (handleGenerateSummary stateC2 "ROOM2" (.failure gatewayFailMsg)).1
      = stateC2 :=
  ⟨rfl, by decide, by decide,
   (mutations_update_lastActivity stateC2 "ROOM2" "s9" "zoe" ['h', 'i'] 42
     roomC2 rfl).1,
   (mutations_update_lastActivity stateC2 "ROOM2" "s9" "zoe" ['h', 'i'] 43
     roomC2 rfl).2.1 (by decide) (by decide),
   (mutations_update_lastActivity stateC2 "ROOM2" "s9" "zoe" ['h', 'i'] 44
     roomC2 rfl).2.2.1,
   (mutations_update_lastActivity stateC2 "ROOM2" "s9" "zoe" ['h', 'i'] 42
     roomC2 rfl).2.2.2 (.failure gatewayFailMsg)⟩

/-- Claim C3 counterexample: `t0` has trimmed length 5000 (within the
limit, and positive), yet `send_message` on an existing, far-from-full room
rejects it with the length error, because validation checks the RAW length
5001 — so "sendMessage succeeds for every t with 0 < len(trim(t)) ≤ maxLen"
is false. -/
theorem c3_counterexample_raw_length_checked :
    0 < (trim t0).length ∧
    (trim t0).length ≤ MAX_CHARACTERS_PER_MESSAGE ∧
    sendMessage stateC3 "ROOM3" "zoe" t0 7
      = (stateC3, .invalidMessage msgTooLongError) := by
  refine ⟨?_, ?_, ?_⟩
  · rw [trim_t0, List.length_replicate]; decide
  · rw [trim_t0, List.length_replicate]; decide
  · simp only [sendMessage, validate_t0,
      show lookupRoom stateC3 "ROOM3" = some roomC3 from rfl]

/-- Claim C3 (amended): for texts whose trimmed length is positive and
whose RAW length is within the limit, `send_message` on an existing room
below the message cap succeeds and stores exactly the trimmed text. -/
theorem sendMessage_stores_trimmed (rs : Rooms) (code u : String)
    (t : Str) (now : Int) (room : Room)
    (hlk : lookupRoom rs code = some room)
    (hcap : room.messages.length < MAX_MESSAGES_PER_ROOM)
    (hne : 0 < (trim t).length)
    (hlen : t.length ≤ MAX_CHARACTERS_PER_MESSAGE) :
    (sendMessage rs code u t now).2 = .broadcast u (trim t) ∧
    (lookupRoom (sendMessage rs code u t now).1 code).map Room.messages
      = some (room.messages ++ [⟨u, trim t, now⟩]) := by
  have ht : t ≠ [] := by
    intro h
    rw [h] at hne
    simp [trim] at hne
  have hie : t.isEmpty = false := List.isEmpty_eq_false.mpr ht
  have hz : ((trim t).length == 0) = false := by
    simpa using Nat.pos_iff_ne_zero.mp hne
  have hgt : ¬(t.length > MAX_CHARACTERS_PER_MESSAGE) := Nat.not_lt.mpr hlen
  have hv : validateMessage t = .valid := by
    unfold validateMessage
    rw [hie, if_neg Bool.false_ne_true, hz, if_neg Bool.false_ne_true,
      if_neg hgt]
  have hl : hasReachedMessageLimit rs code = false := by
    unfold hasReachedMessageLimit
    rw [hlk]
    simp [Nat.not_le.mpr hcap]
  refine ⟨?_, ?_⟩ <;>
    simp only [sendMessage, hlk, hv, hl, Bool.false_eq_true, if_false]
  rw [lookupRoom_updateRoom_self rs code room _ hlk]
  rfl

/-- Claim C3 witness: the amended theorem instantiated on `stateC3` with
the text `hi`. -/
theorem sendMessage_stores_trimmed_witness :
    (lookupRoom stateC3 "ROOM3" = some roomC3 ∧
     roomC3.messages.length < MAX_MESSAGES_PER_ROOM ∧
     0 < (trim ['h', 'i']).length ∧
     (['h', 'i'] : Str).length ≤ MAX_CHARACTERS_PER_MESSAGE) ∧
    ((sendMessage stateC3 "ROOM3" "zoe" ['h', 'i'] 7).2
       = .broadcast "zoe" (trim ['h', 'i']) ∧
     (lookupRoom (sendMessage stateC3 "ROOM3" "zoe" ['h', 'i'] 7).1
       "ROOM3").map Room.messages
       = some (roomC3.messages ++ [⟨"zoe", trim ['h', 'i'], 7⟩])) :=
  ⟨⟨rfl, by decide, by decide, by decide⟩,
   sendMessage_stores_trimmed stateC3 "ROOM3" "zoe" ['h', 'i'] 7 roomC3 rfl
     (by decide) (by decide) (by decide)⟩

/-- Claim C4: on a room holding exactly `MAX_MESSAGES_PER_ROOM` messages,
sending any valid text is rejected with the limit error, the store is
returned unchanged, and the room still holds exactly the maximum number of
messages. -/
theorem sendMessage_at_capacity_rejected (rs : Rooms) (code u : String)
    (t : Str) (now : Int) (room : Room)
    (hlk : lookupRoom rs code = some room)
    (hfull : room.messages.length = MAX_MESSAGES_PER_ROOM)
    (hv : validateMessage t = .valid) :
    sendMessage rs code u t now = (rs, .limitReached) ∧
    (lookupRoom rs code).map (fun r => r.messages.length)
      = some MAX_MESSAGES_PER_ROOM := by
  have hl : hasReachedMessageLimit rs code = true := by
    unfold hasReachedMessageLimit
    rw [hlk]
    simp [hfull]
  constructor
  · simp only [sendMessage, hlk, hv, hl, if_true]
  · rw [hlk]
    simp [hfull]

/-- Claim C4 witness: the theorem instantiated on the full room
`roomC4`. -/
theorem sendMessage_at_capacity_rejected_witness :
    (lookupRoom stateC4 "ROOM4" = some roomC4 ∧
     roomC4.messages.length = MAX_MESSAGES_PER_ROOM ∧
     validateMessage ['h', 'i'] = .valid) ∧
    (sendMessage stateC4 "ROOM4" "zoe" ['h', 'i'] 9 = (stateC4, .limitReached) ∧
     (lookupRoom stateC4 "ROOM4").map (fun r => r.messages.length)
       = some MAX_MESSAGES_PER_ROOM) :=
  ⟨⟨rfl, by simp [roomC4, List.length_replicate], by decide⟩,
   sendMessage_at_capacity_rejected stateC4 "ROOM4" "zoe" ['h', 'i'] 9
     roomC4 rfl (by simp [roomC4, List.length_replicate]) (by decide)⟩

/-- Claim C5: a summarize request on an existing room with zero messages
is rejected with the no-messages error, the gateway is never invoked (the
handler's guard never reaches the gateway call), and the room is left in
the store. -/
theorem requestSummary_empty_room (rs : Rooms) (code : String) (room : Room)
    (hlk : lookupRoom rs code = some room) (hempty : room.messages = []) :
    summaryGuard rs code = .noMessages ∧
    gatewayInvoked rs code = false ∧
    (∀ gw, handleGenerateSummary rs code gw = (rs, .errorNoMessages)) ∧
    lookupRoom rs code = some room := by
  have he : room.messages.isEmpty = true := by rw [hempty]; rfl
  refine ⟨?_, ?_, fun gw => ?_, hlk⟩
  · simp [summaryGuard, hlk, he]
  · simp [gatewayInvoked, summaryGuard, hlk, he]
  · simp [handleGenerateSummary, hlk, he]

/-- Claim C5 witness: the theorem instantiated on the message-less room
`roomC5`. -/
theorem requestSummary_empty_room_witness :
    (lookupRoom stateC5 "ROOM5" = some roomC5 ∧ roomC5.messages = []) ∧
    (summaryGuard stateC5 "ROOM5" = .noMessages ∧
     gatewayInvoked stateC5 "ROOM5" = false ∧
     (∀ gw, handleGenerateSummary stateC5 "ROOM5" gw
       = (stateC5, .errorNoMessages)) ∧
     lookupRoom stateC5 "ROOM5" = some roomC5) :=
  ⟨⟨rfl, rfl⟩, requestSummary_empty_room stateC5 "ROOM5" roomC5 rfl rfl⟩

/-- Claim C6: when the gateway call fails, the handler reports the error —
via `socket.emit`, i.e. to the requesting connection only — and leaves the
store unchanged: the room is still present with its messages intact, and a
subsequent summarize request on it passes the guard again. -/
theorem gateway_failure_room_preserved (rs : Rooms) (code errMsg : String)
    (room : Room) (hlk : lookupRoom rs code = some room)
    (hne : room.messages ≠ []) :
    handleGenerateSummary rs code (.failure errMsg)
      = (rs, .errorGateway errMsg) ∧
    emitRecipient (handleGenerateSummary rs code (.failure errMsg)).2
      = .requesterOnly ∧
    lookupRoom (handleGenerateSummary rs code (.failure errMsg)).1 code
      = some room ∧
    summaryGuard (handleGenerateSummary rs code (.failure errMsg)).1 code
      = .proceed := by
  have he : room.messages.isEmpty = false := List.isEmpty_eq_false.mpr hne
  have hmain : handleGenerateSummary rs code (.failure errMsg)
      = (rs, .errorGateway errMsg) := by
    simp [handleGenerateSummary, hlk, he]
  refine ⟨hmain, ?_, ?_, ?_⟩
  · rw [hmain]; rfl
  · rw [hmain]; exact hlk
  · rw [hmain]
    simp [summaryGuard, hlk, he]

/-- Claim C6 witness: the theorem instantiated on `stateC2` (a room with
one message) and an arbitrary gateway error message. -/
theorem gateway_failure_room_preserved_witness :
    (lookupRoom stateC2 "ROOM2" = some roomC2 ∧ roomC2.messages ≠ []) ∧
    (handleGenerateSummary stateC2 "ROOM2" (.failure gatewayFailMsg)
       = (stateC2, .errorGateway gatewayFailMsg) ∧
     emitRecipient (handleGenerateSummary stateC2 "ROOM2"
       (.failure gatewayFailMsg)).2 = .requesterOnly ∧
     lookupRoom (handleGenerateSummary stateC2 "ROOM2"
       (.failure gatewayFailMsg)).1 "ROOM2" = some roomC2 ∧
     summaryGuard (handleGenerateSummary stateC2 "ROOM2"
       (.failure gatewayFailMsg)).1 "ROOM2" = .proceed) :=
  ⟨⟨rfl, by decide⟩,
   gateway_failure_room_preserved stateC2 "ROOM2" gatewayFailMsg roomC2 rfl
     (by decide)⟩

/-- Claim C7 counterexample: a reply that parses but carries none of the
three fields yields a summary whose overview is the fixed placeholder
`No summary available` — a NON-empty string — so "missing overview defaults
to an empty overview string" is false (the list defaults and the ok result
are as claimed). -/
theorem c7_counterexample_default_overview_not_empty :
    gatewaySummarize (some replyMissingAll)
      = .ok ⟨NO_SUMMARY_AVAILABLE, [], []⟩ ∧
    NO_SUMMARY_AVAILABLE ≠ [] :=
  ⟨rfl, by decide⟩

/-- Claim C7 (amended): a reply that parses as structured data never hard
fails — the gateway returns a summary whose missing overview defaults to
the fixed non-empty placeholder string `No summary available`, whose
missing key-point list defaults to `[]` and whose missing action-item list
defaults to `[]`; a gateway error arises exactly when the whole reply is
unparseable. -/
theorem gateway_partial_reply_defaults (r : ParsedReply) :
    gatewaySummarize (some r) = .ok (buildSummary r) ∧
    (r.summary = none → (buildSummary r).summary = NO_SUMMARY_AVAILABLE) ∧
    (r.keyPoints = none → (buildSummary r).keyPoints = []) ∧
    (r.actionItems = none → (buildSummary r).actionItems = []) ∧
    ∀ p : Option ParsedReply,
      (∃ e, gatewaySummarize p = .error e) ↔ p = none := by
  refine ⟨rfl, fun h => ?_, fun h => ?_, fun h => ?_, fun p => ?_⟩
  · simp [buildSummary, jsOrDefault, h]
  · simp [buildSummary, h]
  · simp [buildSummary, h]
  · cases p with
    | none => exact ⟨fun _ => rfl, fun _ => ⟨gatewayFailMsg, rfl⟩⟩
    | some q =>
        constructor
        · rintro ⟨e, he⟩
          simp [gatewaySummarize] at he
        · intro h
          exact Option.noConfusion h

/-- Claim C7 witness: the amended theorem instantiated on the reply with
all three fields missing. -/
theorem gateway_partial_reply_defaults_witness :
    replyMissingAll.summary = none ∧
    (buildSummary replyMissingAll).summary = NO_SUMMARY_AVAILABLE ∧
    (buildSummary replyMissingAll).keyPoints = [] ∧
    (buildSummary replyMissingAll).actionItems = [] :=
  ⟨rfl, (gateway_partial_reply_defaults replyMissingAll).2.1 rfl,
   (gateway_partial_reply_defaults replyMissingAll).2.2.1 rfl,
   (gateway_partial_reply_defaults replyMissingAll).2.2.2.1 rfl⟩

/-- Claim C8 counterexample: in `roomC8` the connection id `s1` occurs
twice in the participant list; one `disconnecting` call for `s1` removes
BOTH entries (2 participants removed, list goes from length 2 to empty), so
"at most one participant is removed per call" is false. -/
theorem c8_counterexample_two_removed_in_one_call :
    (lookupRoom stateC8 "ROOM8").map (fun r => r.users.length) = some 2 ∧
    (lookupRoom (disconnectFromRoom stateC8 "ROOM8" "s1" 9) "ROOM8").map
      Room.users = some [] :=
  ⟨rfl, by decide⟩

/-- Claim C8 (amended): a disconnect call removes EVERY participant whose
connection identifier matches the disconnecting socket — the surviving
participant list is exactly the non-matching entries, and the number
removed equals the number of matching entries, which exceeds one when the
same connection joined the room more than once. -/
theorem disconnect_removes_all_matching (rs : Rooms) (code sid : String)
    (now : Int) (room : Room) (hlk : lookupRoom rs code = some room) :
    (lookupRoom (disconnectFromRoom rs code sid now) code).map Room.users
      = some (room.users.filter (fun u => u.id != sid)) ∧
    (room.users.filter (fun u => u.id != sid)).length
      + (room.users.filter (fun u => u.id == sid)).length
      = room.users.length := by
  refine ⟨?_, users_filter_length room.users sid⟩
  simp only [disconnectFromRoom, hlk]
  rw [lookupRoom_updateRoom_self rs code room _ hlk]
  rfl

/-- Claim C8 witness: the amended theorem instantiated on `roomC8`, where
both participants match and both are removed. -/
theorem disconnect_removes_all_matching_witness :
    lookupRoom stateC8 "ROOM8" = some roomC8 ∧
    ((lookupRoom (disconnectFromRoom stateC8 "ROOM8" "s1" 9) "ROOM8").map
       Room.users = some (roomC8.users.filter (fun u => u.id != "s1")) ∧
     (roomC8.users.filter (fun u => u.id != "s1")).length
       + (roomC8.users.filter (fun u => u.id == "s1")).length
       = roomC8.users.length) :=
  ⟨rfl, disconnect_removes_all_matching stateC8 "ROOM8" "s1" 9 roomC8 rfl⟩

/-- Claim C9: one reaper pass removes exactly the rooms whose idle time
`now - lastActivity` strictly exceeds `ROOM_INACTIVITY_TIMEOUT` — the
resulting store is the original filtered to the non-expired rooms, in
order — and the reported count is the number of expired rooms. -/
theorem expireInactiveRooms_exact (rs : Rooms) (now : Int)
    (hnd : (rs.map Prod.fst).Nodup) :
    (expireInactiveRooms rs now).1
      = rs.filter (fun p => !(isExpired now p.2)) ∧
    (expireInactiveRooms rs now).2
      = (rs.filter (fun p => isExpired now p.2)).length := by
  constructor
  · unfold expireInactiveRooms
    simp only
    rw [foldl_removeRoom_eq_filter]
    apply List.filter_congr
    intro p hp
    congr 1
    cases he : isExpired now p.2 with
    | true =>
        have hm : p.1 ∈ (rs.filter (fun q => isExpired now q.2)).map Prod.fst :=
          List.mem_map.mpr ⟨p, List.mem_filter.mpr ⟨hp, he⟩, rfl⟩
        simpa [List.elem_iff] using hm
    | false =>
        rw [Bool.eq_false_iff]
        intro hcon
        have hm : p.1 ∈ (rs.filter (fun q => isExpired now q.2)).map Prod.fst := by
          simpa [List.elem_iff] using hcon
        obtain ⟨q, hq, hq1⟩ := List.mem_map.mp hm
        obtain ⟨hqrs, hqe⟩ := List.mem_filter.mp hq
        have hqp : q = p := List.inj_on_of_nodup_map hnd hqrs hp hq1
        rw [hqp, he] at hqe
        exact Bool.false_ne_true hqe
  · unfold expireInactiveRooms
    simp [List.length_map]

/-- Claim C9 witness: the theorem instantiated on a store with one fresh
and one stale room at `now = 2000000`: the stale room is removed, the
fresh one kept, and the count is 1. -/
theorem expireInactiveRooms_exact_witness :
    (stateC9.map Prod.fst).Nodup ∧
    ((expireInactiveRooms stateC9 2000000).1
       = stateC9.filter (fun p => !(isExpired 2000000 p.2)) ∧
     (expireInactiveRooms stateC9 2000000).2
       = (stateC9.filter (fun p => isExpired 2000000 p.2)).length) :=
  ⟨by decide, expireInactiveRooms_exact stateC9 2000000 (by decide)⟩

/-- Claim C10: joining an existing room always succeeds and appends the
participant, whatever the display name and however many participants the
room already has — no participant limit is enforced — and the only failure
is an absent room. -/
theorem join_appends_unconditionally (rs : Rooms) (code id u : String)
    (now : Int) (room : Room) (hlk : lookupRoom rs code = some room) :
    (joinRoom rs code id u now).2 = .joined u ∧
    (lookupRoom (joinRoom rs code id u now).1 code).map Room.users
      = some (room.users ++ [⟨id, u⟩]) ∧
    ∀ rs2 : Rooms, ∀ c2 : String, lookupRoom rs2 c2 = none →
      joinRoom rs2 c2 id u now = (rs2, .roomNotFound) := by
  refine ⟨?_, ?_, fun rs2 c2 h2 => ?_⟩
  · simp [joinRoom, hlk]
  · simp only [joinRoom, hlk]
    rw [lookupRoom_updateRoom_self rs code room _ hlk]
    rfl
  · simp [joinRoom, h2]

/-- Claim C10 witness: the theorem instantiated on `roomC10`, which already
has three participants (beyond the intended two parties) and still accepts
a fourth. -/
theorem join_appends_unconditionally_witness :
    (lookupRoom stateC10 "ROOMX" = some roomC10 ∧
     roomC10.users.length = 3) ∧
    ((joinRoom stateC10 "ROOMX" "s4" "dana" 9).2 = .joined "dana" ∧
     (lookupRoom (joinRoom stateC10 "ROOMX" "s4" "dana" 9).1 "ROOMX").map
       Room.users = some (roomC10.users ++ [⟨"s4", "dana"⟩])) :=
  ⟨⟨rfl, rfl⟩,
   ⟨(join_appends_unconditionally stateC10 "ROOMX" "s4" "dana" 9 roomC10
       rfl).1,
    (join_appends_unconditionally stateC10 "ROOMX" "s4" "dana" 9 roomC10
       rfl).2.1⟩⟩

end Convo
